import Mathlib

/-!
Verification of the remote task lifecycle manager of the `bionic` repository
(`bionic/aip/task.py`) and of the cache-entry comparison logic
(`bionic/cache_api.py`), via a shallow embedding in Lean 4.

Python dictionaries used to build the AI-platform job request are embedded as
ordered association lists of JSON-like values, so that *presence* of a key is
distinguishable from a key bound to `None` (null).
-/

namespace Bionic

/-- JSON-like values, the codomain of the job-spec dictionaries built by
`Task._ai_platform_job_spec`.  `null` embeds Python `None`. -/
inductive JValue where
  | null : JValue
  | str : String → JValue
  | int : Int → JValue
  | arr : List JValue → JValue
  | obj : List (String × JValue) → JValue
deriving Repr

/-- Key lookup in an ordered association list (a Python dict whose keys are
inserted at most once, as in `_ai_platform_job_spec`). -/
def lookupKey : List (String × JValue) → String → Option JValue
  | [], _ => none
  | (k, v) :: rest, key => if k = key then some v else lookupKey rest key

/-- Key-presence test: a dict *contains* a key (possibly bound to null). -/
def hasKey (fields : List (String × JValue)) (key : String) : Bool :=
  (lookupKey fields key).isSome

/-- Embeds an `Optional[str]` Python value placed into a dict slot:
`None` becomes null, a string stays a string. -/
def optStrJ : Option String → JValue
  | none => JValue.null
  | some s => JValue.str s

/-- Embeds `TaskConfig` (task.py, lines 15-26): per-task machine configuration.
The attrs-generated constructor performs no validation; any field
combination is constructible. -/
structure TaskConfig where
  machine : String
  worker_count : Option Int := none
  worker_machine : Option String := none
deriving Repr, DecidableEq

/-- Embeds `Config` (task.py, lines 29-48): cross-task job configuration. -/
structure Config where
  uuid : String
  image_uri : String
  project_name : String
  account : Option String := none
  network : Option String := none
deriving Repr, DecidableEq

/-- Embeds `Task` (task.py, lines 51-58).  The `function` field is an opaque
callable payload in the source; it plays no role in any of the embedded
operations (spec translation, staging, submission, polling address only
the task's name and configs), so it is embedded as an opaque tag. -/
structure Task where
  name : String
  function : String
  config : Config
  task_config : TaskConfig
deriving Repr, DecidableEq

/-- Embeds `Task.job_id` (task.py, lines 60-62): `f"{self.config.uuid}_{self.name}"`. -/
def Task.job_id (t : Task) : String :=
  t.config.uuid ++ "_" ++ t.name

/-- Embeds `Task.inputs_uri` (task.py, lines 64-69). -/
def Task.inputs_uri (t : Task) : String :=
  "gs://" ++ t.config.project_name ++ "/bionic/" ++ t.config.uuid ++ "/" ++
    t.name ++ "-inputs.cloudpickle"

/-- Embeds `Task.output_uri` (task.py, lines 71-76). -/
def Task.output_uri (t : Task) : String :=
  "gs://" ++ t.config.project_name ++ "/bionic/" ++ t.config.uuid ++ "/" ++
    t.name ++ "-output.cloudpickle"

/-- The `trainingInput` dict built by `Task._ai_platform_job_spec`
(task.py, lines 78-107): the literal on lines 83-92, then the conditional
insertion of `network` (lines 94-95) and of the secondary-worker block
(lines 97-105).  Python dict insertion order is kept as list order. -/
def Task.training_input (t : Task) : List (String × JValue) :=
  let base : List (String × JValue) :=
    [ ("serviceAccount", optStrJ t.config.account),
      ("masterType", JValue.str t.task_config.machine),
      ("masterConfig", JValue.obj [("imageUri", JValue.str t.config.image_uri)]),
      ("args", JValue.arr [JValue.str "python", JValue.str "-m",
                           JValue.str "bionic.aip.main", JValue.str t.inputs_uri]),
      ("packageUris", JValue.arr []),
      ("region", JValue.str "us-west1"),
      ("pythonModule", JValue.str ""),
      ("scaleTier", JValue.str "CUSTOM") ]
  let withNet : List (String × JValue) :=
    match t.config.network with
    | none => base
    | some n => base ++ [("network", JValue.str n)]
  match t.task_config.worker_count with
  | none => withNet
  | some wc =>
    if wc > 0 then
      withNet ++
        [ ("workerCount", JValue.int wc),
          ("workerType", optStrJ t.task_config.worker_machine),
          ("workerConfig", JValue.obj [("imageUri", JValue.str t.config.image_uri)]) ]
    else withNet

/-- Embeds `Task._ai_platform_job_spec` (task.py, lines 78-107): the full job
request dict. -/
def Task.ai_platform_job_spec (t : Task) : JValue :=
  JValue.obj
    [ ("jobId", JValue.str t.job_id),
      ("labels", JValue.obj [("job", JValue.str t.config.uuid)]),
      ("trainingInput", JValue.obj t.training_input) ]

/-- Modelled from the spec: the `State` enum lives in `bionic/aip/state.py`,
which is not part of the provided sources.  Per spec §4.4 there is one
*executing* superstate (queued / preparing / running) and a set of terminal
states including at least SUCCEEDED and one or more failure/cancellation
states. -/
inductive State where
  | QUEUED
  | PREPARING
  | RUNNING
  | SUCCEEDED
  | FAILED
  | CANCELLED
deriving Repr, DecidableEq

/-- Modelled from the spec: `State.is_executing` (in the missing
`bionic/aip/state.py`) is true exactly on the non-terminal states. -/
def State.is_executing : State → Bool
  | .QUEUED => true
  | .PREPARING => true
  | .RUNNING => true
  | _ => false

/-- Python `str(x)` applied to the `errorMessage` field (an `Optional[str]`):
`str(None)` is the string `"None"`. -/
def pyStr : Option String → String
  | none => "None"
  | some s => s

/-- Outcome of `Task.wait_for_results`: normal return of the unpickled
output, a raised `AipError` (modelled from the spec: `AipError` is defined
in the missing `bionic/aip/state.py`; `wait_for_results` raises it with the
message `f"{self.job_id}: " + str(error)`), a missing output blob, or an
exhausted response script (the loop would still be polling). -/
inductive WaitOutcome (V : Type) where
  | success : V → WaitOutcome V
  | aipError : String → WaitOutcome V
  | readError : WaitOutcome V
  | hang : WaitOutcome V
deriving Repr, DecidableEq

/-- Observable trace of one `wait_for_results` call: how many describe
(job-state) requests were made, the duration of each `time.sleep`, which
object-store URIs were opened for reading, and the outcome. -/
structure WaitTrace (V : Type) where
  describes : Nat
  sleeps : List Nat
  reads : List String
  outcome : WaitOutcome V
deriving Repr, DecidableEq

/-- The exit path of `wait_for_results` (task.py, lines 140-144) once the
polled state is no longer executing: raise `AipError` unless the state is
exactly SUCCEEDED, otherwise open `output_uri` and unpickle it.  The object
store is a map from URI to the deserialized value (`none` = no blob). -/
def finishWait {V : Type} (t : Task) (store : String → Option V)
    (state : State) (err : Option String)
    (describes : Nat) (sleeps : List Nat) : WaitTrace V :=
  if state = State.SUCCEEDED then
    match store t.output_uri with
    | some v => ⟨describes, sleeps, [t.output_uri], WaitOutcome.success v⟩
    | none => ⟨describes, sleeps, [t.output_uri], WaitOutcome.readError⟩
  else
    ⟨describes, sleeps, [], WaitOutcome.aipError (t.job_id ++ ": " ++ pyStr err)⟩

/-- The polling loop of `wait_for_results` (task.py, lines 134-138):
while the current state is executing, sleep 10 and call
`_get_state_and_error` again.  The provider's successive describe
responses are scripted as the list `rest`; if it runs out while the job is
still executing, the real loop would still be waiting (`hang`). -/
def waitLoop {V : Type} (t : Task) (store : String → Option V) :
    List (State × Option String) → State → Option String →
    Nat → List Nat → WaitTrace V
  | rest, state, err, describes, sleeps =>
    if state.is_executing then
      match rest with
      | [] => ⟨describes, sleeps ++ [10], [], WaitOutcome.hang⟩
      | (s, e) :: rest' =>
        waitLoop t store rest' s e (describes + 1) (sleeps ++ [10])
    else
      finishWait t store state err describes sleeps

/-- Embeds `Task.wait_for_results` (task.py, lines 133-144), with the provider's
describe responses scripted as a list of `(state, errorMessage)` pairs
(each entry is what one `_get_state_and_error` call returns, task.py lines
146-154). -/
def Task.wait_for_results {V : Type} (t : Task) (store : String → Option V)
    (responses : List (State × Option String)) : WaitTrace V :=
  match responses with
  | [] => ⟨0, [], [], WaitOutcome.hang⟩
  | (s, e) :: rest => waitLoop t store rest s e 1 []

/-- Observable effects of `Task.submit` (task.py, lines 118-129), in
order: the staging write to `inputs_uri` (task.py, lines 109-116), the
job-creation request, and — never emitted by `submit`, present only so
that the *absence* of cleanup is expressible — a blob deletion. -/
inductive SubmitEvent where
  | stageWrite : String → SubmitEvent
  | createJob : JValue → String → SubmitEvent
  | deleteBlob : String → SubmitEvent
deriving Repr

/-- Failures that `submit` can propagate: a staging failure raised inside
`_stage` (store unreachable / permission denied / unpicklable payload) or
a job-creation failure raised by `request.execute()`. -/
inductive SubmitError where
  | stagingError : String → SubmitError
  | createError : String → SubmitError
deriving Repr, DecidableEq

/-- Fault injection for one `submit` call: `none` means the corresponding
external call succeeds, `some msg` means it raises. -/
structure SubmitEnv where
  stageFailure : Option String := none
  createFailure : Option String := none

/-- Embeds `Task.submit` (task.py, lines 118-129): `_stage` first (an exception
there propagates before any job-service interaction), then build the spec
and issue the create request.  Returns the emitted event trace and the
result. -/
def Task.submit (t : Task) (env : SubmitEnv) :
    List SubmitEvent × Except SubmitError Unit :=
  match env.stageFailure with
  | some msg => ([], Except.error (SubmitError.stagingError msg))
  | none =>
    let events :=
      [ SubmitEvent.stageWrite t.inputs_uri,
        SubmitEvent.createJob t.ai_platform_job_spec
          ("projects/" ++ t.config.project_name) ]
    match env.createFailure with
    | some msg => (events, Except.error (SubmitError.createError msg))
    | none => (events, Except.ok ())

/-- Whether a submit event is a job-creation request. -/
def SubmitEvent.isCreate : SubmitEvent → Bool
  | .createJob _ _ => true
  | _ => false

/-- Whether a submit event deletes a staged blob. -/
def SubmitEvent.isDelete : SubmitEvent → Bool
  | .deleteBlob _ => true
  | _ => false

/-- Whether a submit event is the staging write to the given URI. -/
def SubmitEvent.isStageAt (uri : String) : SubmitEvent → Bool
  | .stageWrite u => u = uri
  | _ => false

/-- An inventory item as consumed by `CacheEntry.__init__`
(cache_api.py, lines 88-96): the fields of `inv_item` that the constructor
reads.  `tier` stands for `inv_item.inventory.tier`. -/
structure InvItem where
  tier : String
  abs_artifact_url : String
  abs_metadata_url : String
  descriptor : String
deriving Repr, DecidableEq

/-- Embeds `CacheEntry` (cache_api.py, lines 70-127) with the fields its
constructor stores.  (`_cache` and `_inventory` are back-references unused
by comparison; the `entity` property depends on a descriptor-parsing module
outside this core and differing `descriptor` stands in for differing
entity.) -/
structure CacheEntry where
  comparison_key : String
  tier : String
  artifact_url : String
  metadata_url : String
  descriptor : String
deriving Repr, DecidableEq

/-- Embeds `CacheEntry.__init__` (cache_api.py, lines 88-96):
`self._comparison_key = inv_item.abs_metadata_url`,
`self.metadata_url = inv_item.abs_metadata_url`, etc. -/
def CacheEntry.ofInvItem (i : InvItem) : CacheEntry :=
  { comparison_key := i.abs_metadata_url
    tier := i.tier
    artifact_url := i.abs_artifact_url
    metadata_url := i.abs_metadata_url
    descriptor := i.descriptor }

/-- Embeds `CacheEntry.__repr__` (cache_api.py, lines 126-127), with Python's
`!r` on the URL rendered as surrounding quotes. -/
def CacheEntry.reprStr (e : CacheEntry) : String :=
  "CacheEntry(metadata_url=" ++ "\x27" ++ e.metadata_url ++ "\x27" ++ ")"

/-- A Python value handed to `__eq__`/`__lt__`: either a `CacheEntry`, or
any non-`CacheEntry` object (carried as its `repr` string). -/
inductive PyVal where
  | entry : CacheEntry → PyVal
  | other : String → PyVal
deriving Repr

/-- The value a Python comparison dunder can return: a bool, or — as
`CacheEntry.__lt__` does for non-entries — a `TypeError` *object* returned
(not raised) as an ordinary value. -/
inductive PyRes where
  | pyBool : Bool → PyRes
  | typeErrorObj : String → PyRes
deriving Repr, DecidableEq

/-- Python truthiness of such a result: `False` is falsy; any exception
*object* (here the returned `TypeError` instance) is truthy. -/
def PyRes.truthy : PyRes → Bool
  | .pyBool b => b
  | .typeErrorObj _ => true

/-- Embeds `CacheEntry.__eq__` (cache_api.py, lines 116-119).  The `Except`
wrapper records whether the method raises: it never does (`.ok` in both
branches). -/
def CacheEntry.eqPy (self : CacheEntry) : PyVal → Except String Bool
  | .entry o => Except.ok (self.comparison_key == o.comparison_key)
  | .other _ => Except.ok false

/-- Embeds `CacheEntry.__lt__` (cache_api.py, lines 121-124).  For a
non-`CacheEntry` argument the method *returns* a `TypeError` object
instead of raising it, so the result is `.ok` in both branches. -/
def CacheEntry.ltPy (self : CacheEntry) : PyVal → Except String PyRes
  | .entry o =>
    Except.ok (PyRes.pyBool (decide (self.comparison_key.data < o.comparison_key.data)))
  | .other r =>
    Except.ok (PyRes.typeErrorObj
      ("Can\x27t compare " ++ self.reprStr ++ " with non-CacheEntry " ++ r))

/-- Embeds `CacheEntry.__hash__` (cache_api.py, lines 113-114):
`hash(self._comparison_key)` for whatever Python's builtin string hash
`pyHash` is. -/
def CacheEntry.hashPy (pyHash : String → Int) (self : CacheEntry) : Int :=
  pyHash self.comparison_key

/-- The length of the `args` array of a task's job spec (`none` if the
`args` slot is missing or not an array). -/
def Task.argsLen (t : Task) : Option Nat :=
  match lookupKey t.training_input "args" with
  | some (JValue.arr l) => some l.length
  | _ => none

/-- Concrete job configuration with no account and no network. -/
def cfgEx : Config :=
  { uuid := "u", image_uri := "img", project_name := "p" }

/-- Concrete single-machine task configuration. -/
def tcEx : TaskConfig := { machine := "n1" }

/-- Concrete task used as an explicit input in witnesses and
counterexamples. -/
def taskEx : Task :=
  { name := "t", function := "f", config := cfgEx, task_config := tcEx }

/-- A second concrete task agreeing with `taskEx` on `(uuid, name,
project_name)` but differing elsewhere. -/
def taskEx2 : Task :=
  { name := "t", function := "g",
    config := { uuid := "u", image_uri := "img2", project_name := "p",
                account := some "acct", network := some "net" },
    task_config := { machine := "n2", worker_count := some 3,
                     worker_machine := some "w" } }

/-- Concrete object store holding the value `42` at `taskEx`'s output
URI. -/
def storeEx : String → Option Nat :=
  fun u => if u = taskEx.output_uri then some 42 else none

/-- Task configuration with a positive worker count but no worker
machine — the combination the spec calls a construction-time error. -/
def badTC : TaskConfig :=
  { machine := "n1", worker_count := some 2, worker_machine := none }

/-- Task carrying `badTC`; it is constructible (attrs performs no
validation). -/
def badTask : Task :=
  { name := "t", function := "f", config := cfgEx, task_config := badTC }

/-- Concrete inventory items sharing a metadata URL but differing in
tier, artifact URL and descriptor. -/
def invA : InvItem :=
  { tier := "local", abs_artifact_url := "file:///a1",
    abs_metadata_url := "file:///m", descriptor := "d1" }

/-- See `invA`: same metadata URL, all other fields different. -/
def invB : InvItem :=
  { tier := "cloud", abs_artifact_url := "gs://a2",
    abs_metadata_url := "file:///m", descriptor := "d2" }

/-! ## Helper lemmas -/

theorem lookupKey_append_of_none {xs : List (String × JValue)}
    {k : String} (h : lookupKey xs k = none) (ys : List (String × JValue)) :
    lookupKey (xs ++ ys) k = lookupKey ys k := by
  induction xs with
  | nil => simp
  | cons p rest ih =>
    obtain ⟨a, b⟩ := p
    by_cases hk : a = k
    · simp [lookupKey, hk] at h
    · simp only [lookupKey, List.cons_append, if_neg hk] at h ⊢
      exact ih h

theorem lookupKey_append_of_some {xs : List (String × JValue)}
    {k : String} {v : JValue} (h : lookupKey xs k = some v)
    (ys : List (String × JValue)) :
    lookupKey (xs ++ ys) k = some v := by
  induction xs with
  | nil => simp [lookupKey] at h
  | cons p rest ih =>
    obtain ⟨a, b⟩ := p
    by_cases hk : a = k
    · simp only [lookupKey, List.cons_append, if_pos hk] at h ⊢
      exact h
    · simp only [lookupKey, List.cons_append, if_neg hk] at h ⊢
      exact ih h

/-- Both fields of `finishWait` that record the polling effort are the
accumulators passed in, whatever the final state and store contents. -/
theorem finishWait_counts {V : Type} (t : Task) (store : String → Option V)
    (s : State) (e : Option String) (d : Nat) (sl : List Nat) :
    (finishWait t store s e d sl).describes = d ∧
    (finishWait t store s e d sl).sleeps = sl := by
  unfold finishWait
  split
  · cases store t.output_uri <;> simp
  · simp

/-- Lemma: `waitLoop` at a terminal state falls through to `finishWait`,
whatever responses remain scripted. -/
theorem waitLoop_terminal {V : Type} (t : Task) (store : String → Option V)
    (rest : List (State × Option String)) (s : State) (e : Option String)
    (d : Nat) (sl : List Nat) (hs : s.is_executing = false) :
    waitLoop t store rest s e d sl = finishWait t store s e d sl := by
  unfold waitLoop
  simp [hs]

/-- Lemma: `waitLoop` at an executing state sleeps 10 units and re-polls,
consuming the next scripted response. -/
theorem waitLoop_exec_cons {V : Type} (t : Task) (store : String → Option V)
    (s1 : State) (e1 : Option String) (rest : List (State × Option String))
    (st : State) (e0 : Option String) (d : Nat) (sl : List Nat)
    (hst : st.is_executing = true) :
    waitLoop t store ((s1, e1) :: rest) st e0 d sl =
      waitLoop t store rest s1 e1 (d + 1) (sl ++ [10]) := by
  conv_lhs => unfold waitLoop
  simp [hst]

/-- Unrolling `waitLoop` while the scripted responses begin with a block
of executing states: each executing poll costs one describe and one
10-unit sleep, and the loop stops at the first terminal response. -/
theorem waitLoop_exec_append {V : Type} (t : Task) (store : String → Option V)
    (pre : List (State × Option String)) :
    ∀ (st : State) (e0 : Option String) (s : State) (e : Option String)
      (post : List (State × Option String)) (d : Nat) (sl : List Nat),
      st.is_executing = true →
      (∀ p ∈ pre, (p.1).is_executing = true) →
      s.is_executing = false →
      waitLoop t store (pre ++ (s, e) :: post) st e0 d sl =
        finishWait t store s e (d + pre.length + 1)
          (sl ++ List.replicate (pre.length + 1) 10) := by
  induction pre with
  | nil =>
    intro st e0 s e post d sl hst _ hs
    rw [List.nil_append, waitLoop_exec_cons t store s e post st e0 d sl hst,
        waitLoop_terminal t store post s e _ _ hs]
    simp
  | cons q pre ih =>
    intro st e0 s e post d sl hst hpre hs
    obtain ⟨qs, qe⟩ := q
    have hq : qs.is_executing = true := hpre (qs, qe) (by simp)
    have hpre' : ∀ p ∈ pre, (p.1).is_executing = true :=
      fun p hp => hpre p (by simp [hp])
    rw [List.cons_append,
        waitLoop_exec_cons t store qs qe (pre ++ (s, e) :: post) st e0 d sl hst,
        ih qs qe s e post (d + 1) (sl ++ [10]) hq hpre' hs]
    have h1 : d + 1 + pre.length + 1 = d + ((qs, qe) :: pre).length + 1 := by
      simp
      omega
    have h2 : (sl ++ [10]) ++ List.replicate (pre.length + 1) 10 =
        sl ++ List.replicate (((qs, qe) :: pre).length + 1) 10 := by
      simp [List.replicate_succ]
    rw [h1, h2]

/-! ## Claim theorems -/

/-- C1: for every Task whose taskConfig has workerCount > 0 and
workerMachine set, the produced spec contains a worker block whose count
equals workerCount, whose worker type equals workerMachine and whose
worker image equals config.imageUri; for workerCount null or ≤ 0, the
spec contains no workerCount, workerType or workerConfig key at all. -/
theorem C1_worker_block (t : Task) :
    (∀ wc wm, t.task_config.worker_count = some wc → 0 < wc →
        t.task_config.worker_machine = some wm →
        lookupKey t.training_input "workerCount" = some (JValue.int wc) ∧
        lookupKey t.training_input "workerType" = some (JValue.str wm) ∧
        lookupKey t.training_input "workerConfig" =
          some (JValue.obj [("imageUri", JValue.str t.config.image_uri)])) ∧
    ((∀ wc, t.task_config.worker_count = some wc → wc ≤ 0) →
        hasKey t.training_input "workerCount" = false ∧
        hasKey t.training_input "workerType" = false ∧
        hasKey t.training_input "workerConfig" = false) := by
  constructor
  · intro wc wm hwc hpos hwm
    cases hn : t.config.network <;>
      simp [Task.training_input, lookupKey, hasKey, hwc, hwm, hn, hpos, optStrJ]
  · intro hle
    cases hwc : t.task_config.worker_count with
    | none =>
      cases hn : t.config.network <;>
        simp [Task.training_input, lookupKey, hasKey, hwc, hn]
    | some wc =>
      have : ¬ (wc > 0) := by
        have := hle wc hwc
        omega
      cases hn : t.config.network <;>
        simp [Task.training_input, lookupKey, hasKey, hwc, hn, this]

/-- Witness for C1 at explicit inputs: `taskEx2` has workerCount 3 and
workerMachine "w" and gets the full worker block; `taskEx` has
workerCount null and gets none of the three keys. -/
theorem C1_worker_block_witness :
    (lookupKey taskEx2.training_input "workerCount" = some (JValue.int 3) ∧
     lookupKey taskEx2.training_input "workerType" = some (JValue.str "w") ∧
     lookupKey taskEx2.training_input "workerConfig" =
       some (JValue.obj [("imageUri", JValue.str "img2")])) ∧
    hasKey taskEx.training_input "workerCount" = false :=
  ⟨(C1_worker_block taskEx2).1 3 "w" rfl (by decide) rfl,
   ((C1_worker_block taskEx).2 (fun wc h => by simp [taskEx, tcEx] at h)).1⟩

/-- C2 fails as stated: the explicit task `taskEx` has a null account, yet
the produced `trainingInput` dict *does* contain the `serviceAccount`
key (bound to null) — line 84 of task.py sets it unconditionally. -/
theorem C2_counterexample :
    ¬ (hasKey taskEx.training_input "serviceAccount" = true ↔
        taskEx.config.account.isSome = true) := by
  intro h
  have : taskEx.config.account.isSome = true := h.mp rfl
  simp [taskEx, cfgEx] at this

/-- C2 amended: the network field is present iff `config.network` is
non-null, but the `serviceAccount` key is *always* present, bound to the
account when set and to null otherwise. -/
theorem C2_network_iff_account_always (t : Task) :
    hasKey t.training_input "network" = t.config.network.isSome ∧
    hasKey t.training_input "serviceAccount" = true ∧
    lookupKey t.training_input "serviceAccount" =
      some (optStrJ t.config.account) := by
  refine ⟨?_, ?_, ?_⟩ <;>
  · cases hn : t.config.network <;>
      cases hwc : t.task_config.worker_count <;>
      simp only [Task.training_input, hn, hwc] <;>
      (try split) <;>
      simp [lookupKey, hasKey, optStrJ]

/-- C6: jobId, inputsUri and outputUri are pure functions of
`(uuid, name, projectName)` — two tasks agreeing on those fields get
identical strings — and jobId is exactly `uuid ++ "_" ++ name`.
(Purity/absence of side effects holds by construction: the embedded
properties are Lean functions of the task alone.) -/
theorem C6_derived_ids (t1 t2 : Task)
    (hu : t1.config.uuid = t2.config.uuid) (hn : t1.name = t2.name)
    (hp : t1.config.project_name = t2.config.project_name) :
    t1.job_id = t1.config.uuid ++ "_" ++ t1.name ∧
    t1.job_id = t2.job_id ∧
    t1.inputs_uri = t2.inputs_uri ∧
    t1.output_uri = t2.output_uri := by
  simp [Task.job_id, Task.inputs_uri, Task.output_uri, hu, hn, hp]

/-- Witness for C6: `taskEx` and `taskEx2` agree on (uuid, name,
projectName) though they differ in every other field. -/
theorem C6_derived_ids_witness :
    taskEx.job_id = taskEx2.job_id ∧ taskEx.inputs_uri = taskEx2.inputs_uri :=
  ⟨(C6_derived_ids taskEx taskEx2 rfl rfl rfl).2.1,
   (C6_derived_ids taskEx taskEx2 rfl rfl rfl).2.2.1⟩

/-- C7 fails as stated: at the explicit task `taskEx` the `args` array of
the job spec has 4 elements (`python`, `-m`, `bionic.aip.main`,
inputsUri), not 3. -/
theorem C7_counterexample :
    taskEx.argsLen = some 4 ∧ ¬ taskEx.argsLen = some 3 := by
  constructor
  · rfl
  · intro h
    rw [show taskEx.argsLen = some 4 from rfl] at h
    simp at h

/-- C7 amended: `args` is always the 4-element list consisting of the
fixed 3-element entry-point invocation (`python -m bionic.aip.main`)
followed by the staged-inputs URI as its sole trailing argument. -/
theorem C7_args_fixed (t : Task) :
    lookupKey t.training_input "args" =
      some (JValue.arr [JValue.str "python", JValue.str "-m",
        JValue.str "bionic.aip.main", JValue.str t.inputs_uri]) ∧
    t.argsLen = some 4 := by
  have h : lookupKey t.training_input "args" =
      some (JValue.arr [JValue.str "python", JValue.str "-m",
        JValue.str "bionic.aip.main", JValue.str t.inputs_uri]) := by
    cases hn : t.config.network <;>
      cases hwc : t.task_config.worker_count <;>
      simp only [Task.training_input, hn, hwc] <;>
      (try split) <;>
      simp [lookupKey]
  exact ⟨h, by simp [Task.argsLen, h]⟩

/-- C3: on the describe sequence [RUNNING, RUNNING, SUCCEEDED] with a
valid output blob at outputUri, wait-for-result performs exactly 3
describe calls and 2 sleeps (each of the fixed 10 units), then reads the
object at outputUri and returns it; and in general the loop re-polls
after one 10-unit sleep per executing response and stops at the first
terminal state. -/
theorem C3_polling {V : Type} (t : Task) (store : String → Option V) (v : V)
    (hv : store t.output_uri = some v) :
    t.wait_for_results store
        [(State.RUNNING, none), (State.RUNNING, none), (State.SUCCEEDED, none)] =
      ⟨3, [10, 10], [t.output_uri], WaitOutcome.success v⟩ ∧
    ∀ (pre : List (State × Option String)) (s : State) (e : Option String)
      (post : List (State × Option String)),
      (∀ p ∈ pre, (p.1).is_executing = true) → s.is_executing = false →
      (t.wait_for_results store (pre ++ (s, e) :: post)).describes =
        pre.length + 1 ∧
      (t.wait_for_results store (pre ++ (s, e) :: post)).sleeps =
        List.replicate pre.length 10 := by
  constructor
  · have h0 : t.wait_for_results store
        [(State.RUNNING, none), (State.RUNNING, none), (State.SUCCEEDED, none)] =
        finishWait t store State.SUCCEEDED none 3 [10, 10] := rfl
    rw [h0]
    simp [finishWait, hv]
  · intro pre s e post hpre hs
    cases pre with
    | nil =>
      have h0 : t.wait_for_results store ([] ++ (s, e) :: post) =
          finishWait t store s e 1 [] := by
        rw [List.nil_append]
        show waitLoop t store post s e 1 [] = _
        exact waitLoop_terminal t store post s e 1 [] hs
      rcases finishWait_counts t store s e 1 [] with ⟨hd, hsl⟩
      rw [h0, hd, hsl]
      simp
    | cons q pre' =>
      obtain ⟨qs, qe⟩ := q
      have hq : qs.is_executing = true := hpre (qs, qe) (by simp)
      have hpre' : ∀ p ∈ pre', (p.1).is_executing = true :=
        fun p hp => hpre p (by simp [hp])
      have h0 : t.wait_for_results store (((qs, qe) :: pre') ++ (s, e) :: post) =
          finishWait t store s e (1 + pre'.length + 1)
            ([] ++ List.replicate (pre'.length + 1) 10) := by
        rw [List.cons_append]
        show waitLoop t store (pre' ++ (s, e) :: post) qs qe 1 [] = _
        exact waitLoop_exec_append t store pre' qs qe s e post 1 [] hq hpre' hs
      rcases finishWait_counts t store s e (1 + pre'.length + 1)
        ([] ++ List.replicate (pre'.length + 1) 10) with ⟨hd, hsl⟩
      rw [h0, hd, hsl]
      constructor
      · simp
        omega
      · simp

/-- Witness for C3 at explicit inputs: `taskEx` against a store holding
42 at its output URI, on the scripted sequence
[RUNNING, RUNNING, SUCCEEDED]. -/
theorem C3_polling_witness :
    taskEx.wait_for_results storeEx
        [(State.RUNNING, none), (State.RUNNING, none), (State.SUCCEEDED, none)] =
      ⟨3, [10, 10], [taskEx.output_uri], WaitOutcome.success 42⟩ :=
  (C3_polling taskEx storeEx 42 rfl).1

/-- C4: whenever polling reaches a terminal state other than SUCCEEDED —
any such state, after any run of executing states, with any
provider-reported error message including a null one (rendered "None" by
Python's str) — wait-for-result raises an AipError whose message is the
jobId followed by the provider-reported message, and performs no read of
outputUri whatever the store contains.  In particular, on the describe
sequence [RUNNING, FAILED("oom")] it makes 2 describe calls and 1 sleep
and raises with the jobId and "oom". -/
theorem C4_failed_job {V : Type} (t : Task) (store : String → Option V) :
    (t.wait_for_results store [(State.RUNNING, none), (State.FAILED, some "oom")] =
      ⟨2, [10], [], WaitOutcome.aipError (t.job_id ++ ": " ++ "oom")⟩) ∧
    ∀ (pre : List (State × Option String)) (s : State) (e : Option String)
      (post : List (State × Option String)),
      (∀ p ∈ pre, (p.1).is_executing = true) →
      s.is_executing = false → s ≠ State.SUCCEEDED →
      (t.wait_for_results store (pre ++ (s, e) :: post)).outcome =
        WaitOutcome.aipError (t.job_id ++ ": " ++ pyStr e) ∧
      (t.wait_for_results store (pre ++ (s, e) :: post)).reads = [] := by
  constructor
  · rfl
  · intro pre s e post hpre hs hns
    have key : ∀ (d : Nat) (sl : List Nat), finishWait t store s e d sl =
        ⟨d, sl, [], WaitOutcome.aipError (t.job_id ++ ": " ++ pyStr e)⟩ := by
      intro d sl
      unfold finishWait
      rw [if_neg hns]
    cases pre with
    | nil =>
      have h0 : t.wait_for_results store ([] ++ (s, e) :: post) =
          finishWait t store s e 1 [] := by
        rw [List.nil_append]
        show waitLoop t store post s e 1 [] = _
        exact waitLoop_terminal t store post s e 1 [] hs
      rw [h0, key]
      exact ⟨rfl, rfl⟩
    | cons q pre' =>
      obtain ⟨qs, qe⟩ := q
      have hq : qs.is_executing = true := hpre (qs, qe) (by simp)
      have hpre' : ∀ p ∈ pre', (p.1).is_executing = true :=
        fun p hp => hpre p (by simp [hp])
      have h0 : t.wait_for_results store (((qs, qe) :: pre') ++ (s, e) :: post) =
          finishWait t store s e (1 + pre'.length + 1)
            ([] ++ List.replicate (pre'.length + 1) 10) := by
        rw [List.cons_append]
        show waitLoop t store (pre' ++ (s, e) :: post) qs qe 1 [] = _
        exact waitLoop_exec_append t store pre' qs qe s e post 1 [] hq hpre' hs
      rw [h0, key]
      exact ⟨rfl, rfl⟩

/-- Witness for C4 at explicit inputs: the concrete
[RUNNING, FAILED("oom")] run on `taskEx`, and the general clause applied
to a different terminal state (CANCELLED), a null error message and a
QUEUED prefix — the store still holding a valid blob, which stays
unread. -/
theorem C4_failed_job_witness :
    (taskEx.wait_for_results storeEx
        [(State.RUNNING, none), (State.FAILED, some "oom")] =
      ⟨2, [10], [], WaitOutcome.aipError (taskEx.job_id ++ ": " ++ "oom")⟩) ∧
    (taskEx.wait_for_results storeEx
        ([(State.QUEUED, none)] ++ (State.CANCELLED, none) :: [])).outcome =
      WaitOutcome.aipError (taskEx.job_id ++ ": " ++ pyStr none) :=
  ⟨(C4_failed_job taskEx storeEx).1,
   ((C4_failed_job taskEx storeEx).2 [(State.QUEUED, none)] State.CANCELLED none []
      (by decide) rfl (by decide)).1⟩

/-- C5: submit stages strictly before creating the job — on staging
failure the event trace is empty (no create call and no remote job); on
staging success the trace is exactly the staging write to inputsUri
followed by the create call (in that order), whether or not create then
fails; and no cleanup/delete of the staged input ever happens. -/
theorem C5_submit_stages_before_create (t : Task) (env : SubmitEnv) :
    (∀ msg, env.stageFailure = some msg →
        (t.submit env).1 = [] ∧
        (t.submit env).2 = Except.error (SubmitError.stagingError msg)) ∧
    (env.stageFailure = none →
        (t.submit env).1 =
          [SubmitEvent.stageWrite t.inputs_uri,
           SubmitEvent.createJob t.ai_platform_job_spec
             ("projects/" ++ t.config.project_name)] ∧
        ∀ msg, env.createFailure = some msg →
          (t.submit env).2 = Except.error (SubmitError.createError msg)) ∧
    (∀ ev ∈ (t.submit env).1, ev.isDelete = false) := by
  obtain ⟨sf, cf⟩ := env
  refine ⟨?_, ?_, ?_⟩
  · intro msg h
    cases sf with
    | none => simp at h
    | some m =>
      injection h with h
      subst h
      exact ⟨rfl, rfl⟩
  · intro h
    cases sf with
    | some m => simp at h
    | none =>
      refine ⟨by cases cf <;> rfl, ?_⟩
      intro msg hc
      cases cf with
      | none => simp at hc
      | some m =>
        injection hc with hc
        subst hc
        rfl
  · intro ev hev
    cases sf with
    | some m => simp [Task.submit] at hev
    | none =>
      cases cf <;>
        (simp [Task.submit] at hev
         rcases hev with rfl | rfl <;> rfl)

/-- Witness for C5 at explicit inputs: with staging failing, `taskEx`
emits no events at all; with staging succeeding and create failing, the
trace is the staging write followed by the create call. -/
theorem C5_submit_witness :
    (taskEx.submit { stageFailure := some "io-error" }).1 = [] ∧
    (taskEx.submit { createFailure := some "quota" }).1 =
      [SubmitEvent.stageWrite taskEx.inputs_uri,
       SubmitEvent.createJob taskEx.ai_platform_job_spec
         ("projects/" ++ taskEx.config.project_name)] :=
  ⟨((C5_submit_stages_before_create taskEx
      { stageFailure := some "io-error" }).1 "io-error" rfl).1,
   ((C5_submit_stages_before_create taskEx
      { createFailure := some "quota" }).2.1 rfl).1⟩

/-- C8 fails as stated: `badTask` carries a TaskConfig with workerCount 2
and workerMachine unset, yet it is constructed without any error (the
attrs-generated constructor validates nothing), and the invalid
combination flows on into the job spec — which gets a `workerCount` key
and a null-valued `workerType` — and through `submit` to the job
service. -/
theorem C8_counterexample :
    badTask.task_config.worker_count = some 2 ∧
    badTask.task_config.worker_machine = none ∧
    lookupKey badTask.training_input "workerCount" = some (JValue.int 2) ∧
    lookupKey badTask.training_input "workerType" = some JValue.null ∧
    (badTask.submit {}).1 =
      [SubmitEvent.stageWrite badTask.inputs_uri,
       SubmitEvent.createJob badTask.ai_platform_job_spec
         ("projects/" ++ badTask.config.project_name)] :=
  ⟨rfl, rfl, rfl, rfl, rfl⟩

/-- C8 amended: no construction-time validation exists; every Task whose
TaskConfig has a positive workerCount and an unset workerMachine is
constructible, and its job spec contains the worker block with a
null-valued workerType (the invalid combination reaches staging and the
job service rather than failing at creation). -/
theorem C8_no_validation (t : Task) (n : Int)
    (hwc : t.task_config.worker_count = some n) (hn : 0 < n)
    (hwm : t.task_config.worker_machine = none) :
    lookupKey t.training_input "workerCount" = some (JValue.int n) ∧
    lookupKey t.training_input "workerType" = some JValue.null := by
  cases hnet : t.config.network <;>
    simp [Task.training_input, lookupKey, hwc, hwm, hnet, hn, optStrJ]

/-- Witness for C8 (amended) at the explicit input `badTask`. -/
theorem C8_no_validation_witness :
    lookupKey badTask.training_input "workerType" = some JValue.null :=
  (C8_no_validation badTask 2 rfl (by decide) rfl).2

/-- C9: two cache entries (built from inventory items) compare equal iff
their metadata URLs are equal; they hash identically whenever their
metadata URLs are equal, whatever Python's string hash is and however
tier, artifact URL or descriptor differ; and their less-than ordering is
exactly the (lexicographic) ordering of their metadata URLs. -/
theorem C9_cache_entry_ordering (i1 i2 : InvItem) (pyHash : String → Int) :
    ((CacheEntry.ofInvItem i1).eqPy (PyVal.entry (CacheEntry.ofInvItem i2)) =
        Except.ok true ↔
      (CacheEntry.ofInvItem i1).metadata_url =
        (CacheEntry.ofInvItem i2).metadata_url) ∧
    ((CacheEntry.ofInvItem i1).metadata_url =
        (CacheEntry.ofInvItem i2).metadata_url →
      CacheEntry.hashPy pyHash (CacheEntry.ofInvItem i1) =
        CacheEntry.hashPy pyHash (CacheEntry.ofInvItem i2)) ∧
    ((CacheEntry.ofInvItem i1).ltPy (PyVal.entry (CacheEntry.ofInvItem i2)) =
        Except.ok (PyRes.pyBool true) ↔
      (CacheEntry.ofInvItem i1).metadata_url <
        (CacheEntry.ofInvItem i2).metadata_url) := by
  refine ⟨?_, ?_, ?_⟩
  · simp [CacheEntry.eqPy, CacheEntry.ofInvItem]
  · intro h
    simp only [CacheEntry.ofInvItem] at h
    simp [CacheEntry.hashPy, CacheEntry.ofInvItem, h]
  · simp [CacheEntry.ltPy, CacheEntry.ofInvItem, String.lt_iff]

/-- Witness for C9 at explicit inputs: `invA` and `invB` share a
metadata URL while differing in tier, artifact URL and descriptor; the
entries built from them hash identically and compare equal. -/
theorem C9_cache_entry_ordering_witness :
    CacheEntry.hashPy (fun s => (s.length : Int)) (CacheEntry.ofInvItem invA) =
      CacheEntry.hashPy (fun s => (s.length : Int)) (CacheEntry.ofInvItem invB) ∧
    (CacheEntry.ofInvItem invA).eqPy (PyVal.entry (CacheEntry.ofInvItem invB)) =
      Except.ok true :=
  ⟨(C9_cache_entry_ordering invA invB (fun s => (s.length : Int))).2.1 rfl,
   (C9_cache_entry_ordering invA invB (fun s => (s.length : Int))).1.mpr rfl⟩

/-- C10: comparing a cache entry with a non-CacheEntry value via `<`
does not raise — `__lt__` *returns* the `TypeError` object as its result
(a truthy value) — while `==` against the same value returns False
without raising. -/
theorem C10_lt_non_entry (i : InvItem) (r : String) :
    (CacheEntry.ofInvItem i).ltPy (PyVal.other r) =
      Except.ok (PyRes.typeErrorObj
        ("Can\x27t compare " ++ (CacheEntry.ofInvItem i).reprStr ++
          " with non-CacheEntry " ++ r)) ∧
    Except.map PyRes.truthy ((CacheEntry.ofInvItem i).ltPy (PyVal.other r)) =
      Except.ok true ∧
    (CacheEntry.ofInvItem i).eqPy (PyVal.other r) = Except.ok false :=
  ⟨rfl, rfl, rfl⟩

end Bionic
